import Mathlib

/-!
Verification development for the pixelprep image-optimization engine
(`backend/src/processors/`).  The Python sources are shallowly embedded:

* pure geometry (`base.py`) works on an `Img` record carrying width, height
  and color mode — pixel contents are irrelevant to every property below;
* CPython `float` arithmetic is modelled exactly by `Fp`, an IEEE-754
  binary64 value `m * 2^e` produced by correct rounding (round to nearest,
  ties to even, 53-bit significand); `flOfScaled` is the rounding kernel.
  The model covers normal positive finite values, which is the entire
  domain the processors use (pixel counts and their quotients);
* the JPEG/WebP/PNG encoder is external to the repository (PIL), so each
  quality-descent loop is parameterised by an abstract `encode` function
  from quality to encoded byte size; writing an encoding to a `BytesIO`
  buffer and re-opening it preserves pixel dimensions and the RGB mode,
  which `buffer_reopen` records;
* Python dict literals returned by the `save_optimized` methods are
  embedded as association lists `List (String × MVal)`.
-/

set_option maxRecDepth 8000

namespace Pixelprep

/-- Fuelled floor-log2: `lg2F fuel n` equals `Nat.log2 n` whenever
`fuel ≥ Nat.log2 n`; structural recursion keeps it kernel-computable. -/
def lg2F : ℕ → ℕ → ℕ
  | 0, _ => 0
  | f + 1, n => if 2 ≤ n then lg2F f (n / 2) + 1 else 0

/-- Floor of the base-2 logarithm, kernel-computable (`n` itself is always
enough fuel). -/
def lg2 (n : ℕ) : ℕ := lg2F n n

/-- Round-half-even of the nonnegative rational `n / d` to an integer
(the rounding used by IEEE-754 binary64 and by Python's `round`). -/
def rhe (n d : ℕ) : ℕ :=
  let q := n / d
  let r := n % d
  if 2 * r < d then q
  else if d < 2 * r then q + 1
  else if q % 2 = 0 then q else q + 1

/-- A nonnegative IEEE-754 binary64 value, represented exactly as
`m * 2^e`.  Produced only through `flOfScaled`, which performs correct
rounding to a 53-bit significand. -/
structure Fp where
  m : ℕ
  e : ℤ
  deriving DecidableEq

/-- Correctly round the real number `(n / d) * 2^s` to binary64: the model
of every CPython float operation used by the processors (each such
operation delivers the correctly rounded exact result). -/
def flOfScaled (n d : ℕ) (s : ℤ) : Fp :=
  if n = 0 ∨ d = 0 then ⟨0, 0⟩
  else
    let La := lg2 n
    let Lb := lg2 d
    let e0 : ℤ := if d * 2 ^ La ≤ n * 2 ^ Lb then (La : ℤ) - Lb else (La : ℤ) - Lb - 1
    let t : ℤ := 52 - e0
    let m := if 0 ≤ t then rhe (n * 2 ^ t.toNat) d else rhe n (d * 2 ^ (-t).toNat)
    ⟨m, e0 - 52 + s⟩

/-- Exact value comparison of two binary64 values (IEEE comparison is
exact on the represented reals). -/
def fpLt (a b : Fp) : Bool :=
  if a.e ≤ b.e then a.m < b.m * 2 ^ (b.e - a.e).toNat
  else a.m * 2 ^ (a.e - b.e).toNat < b.m

/-- Strictly-greater comparison of binary64 values. -/
def fpGt (a b : Fp) : Bool := fpLt b a

/-- Python `int()` applied to a nonnegative float: truncation toward 0. -/
def fpTrunc (a : Fp) : ℕ :=
  if 0 ≤ a.e then a.m * 2 ^ a.e.toNat else a.m / 2 ^ (-a.e).toNat

/-- Conversion of a Python `int` to `float` (rounds when `n ≥ 2^53`). -/
def fpOfNat (n : ℕ) : Fp := flOfScaled n 1 0

/-- Binary64 multiplication: exact product, then one correct rounding. -/
def fpMul (a b : Fp) : Fp := flOfScaled (a.m * b.m) 1 (a.e + b.e)

/-- Binary64 division: exact quotient, then one correct rounding. -/
def fpDiv (a b : Fp) : Fp := flOfScaled a.m b.m (a.e - b.e)

/-- Binary64 absolute difference `|a - b|`: the exact difference is
representable-or-rounded once, per IEEE subtraction. -/
def fpAbsSub (a b : Fp) : Fp :=
  let ee := min a.e b.e
  let ma := a.m * 2 ^ (a.e - ee).toNat
  let mb := b.m * 2 ^ (b.e - ee).toNat
  flOfScaled (max ma mb - min ma mb) 1 ee

/-- The float literal `0.1` (used by `custom.py` as aspect tolerance). -/
def fpPointOne : Fp := flOfScaled 1 10 0

/-- Round-half-even of a rational to an integer (Python `round` on the
idealized value; Python rounds the binary64, identical for the exact
dyadic sizes produced here). -/
def rheZ (x : ℚ) : ℤ :=
  let f := ⌊x⌋
  let r := x - f
  if r < 1 / 2 then f
  else if 1 / 2 < r then f + 1
  else if f % 2 = 0 then f else f + 1

/-- Python `round(x, nd)` for nonnegative `x` (used for the
`file_size_mb` / `file_size_kb` metadata fields). -/
def py_round_to (nd : ℕ) (x : ℚ) : ℚ := (rheZ (x * 10 ^ nd) : ℚ) / 10 ^ nd

/-- Python `str.upper()` on one character, restricted to ASCII (every
format string fed to it in the repository is ASCII). -/
def upper_char (c : Char) : Char :=
  if 97 ≤ c.toNat ∧ c.toNat ≤ 122 then Char.ofNat (c.toNat - 32) else c

/-- Python `str.upper()`: `format.upper()` in `CustomProcessor.__init__`. -/
def py_upper (s : String) : String := String.mk (s.data.map upper_char)

/-- PIL color modes occurring in the sources. -/
inductive PMode
  | L | P | RGB | RGBA | LA | CMYK | YCbCr | LAB | HSV
  deriving DecidableEq

/-- A decoded raster as far as the verified properties are concerned:
pixel dimensions and color mode (`PIL.Image` size and mode). -/
structure Img where
  width : ℕ
  height : ℕ
  mode : PMode
  deriving DecidableEq

/-- BaseProcessor._ensure_rgb: RGBA/LA are composited onto a white RGB
background of the same size; any other non-RGB mode is converted to RGB;
RGB is returned unchanged. -/
def ensure_rgb (img : Img) : Img :=
  if img.mode = .RGBA ∨ img.mode = .LA then ⟨img.width, img.height, .RGB⟩
  else if ¬ img.mode = .RGB then ⟨img.width, img.height, .RGB⟩
  else img

/-- BaseProcessor._smart_crop under CPython float semantics:
`target_ratio = tw/th`, `current_ratio = w/h` (binary64 divisions); if
`current_ratio > target_ratio` crop the width to `int(h * target_ratio)`,
else crop the height to `int(w / target_ratio)`.  The crop box arithmetic
(`left = (w-nw)//2`, `right = left+nw`) always yields a box of exactly the
computed width/height, so only the two truncated products matter. -/
def smart_crop (w h tw th : ℕ) : ℕ × ℕ :=
  let tr := flOfScaled tw th 0
  let cr := flOfScaled w h 0
  if fpGt cr tr then
    (fpTrunc (fpMul (fpOfNat h) tr), h)
  else
    (w, fpTrunc (fpDiv (fpOfNat w) tr))

/-- BaseProcessor._smart_crop under exact rational arithmetic (the
idealization of the same source lines with `/` read as exact division):
`w/h > tw/th` iff `w*th > tw*h`, `int(h * (tw/th)) = h*tw/th`,
`int(w / (tw/th)) = w*th/tw` (Nat division is the floor). -/
def smart_crop_exact (w h tw th : ℕ) : ℕ × ℕ :=
  if tw * h < w * th then (h * tw / th, h) else (w, w * th / tw)

/-- BaseProcessor._resize_with_quality: LANCZOS resampling to exactly the
requested dimensions; mode is preserved. -/
def resize_with_quality (img : Img) (tw th : ℕ) : Img := ⟨tw, th, img.mode⟩

/-- OptimizationUtils.get_image_memory_size: width × height × bytes per
pixel, defaulting to 3. -/
def get_image_memory_size (img : Img) : ℕ :=
  img.width * img.height *
    (match img.mode with
     | .L => 1 | .P => 1 | .RGB => 3 | .RGBA => 4 | .LA => 3
     | .CMYK => 4 | .YCbCr => 3 | .LAB => 3 | .HSV => 3)

/-- Outcome of one run of a quality-descent search.  `quality` and `size`
describe the returned encoding; `met` records which `return` statement
produced it (the in-loop success return that logs "File size acceptable",
versus the post-loop fallback that logs "Could not meet size
requirements"); `attempts` counts encode calls. -/
structure SearchResult where
  quality : ℤ
  size : ℕ
  met : Bool
  attempts : ℕ
  deriving DecidableEq

/-- Loop body of OptimizationUtils.optimize_file_size: while
`quality >= quality_min`, encode at `quality`; return on
`file_size <= max_size_bytes`; otherwise `quality -= quality_step`.
On exhaustion, one final encode at `quality_min` is returned un-met.
The encoder (PIL `Image.save` with the processor's kwargs) is the
abstract `encode`; the Python loop diverges when `quality_step <= 0`,
so the embedding carries the `PresetSpec` invariant `0 < qStep`
(every call site passes the default step 5). -/
def optimize_go (encode : ℤ → ℕ) (maxB : ℕ) (qMin qStep : ℤ) (hs : 0 < qStep)
    (q : ℤ) (att : ℕ) : SearchResult :=
  if qMin ≤ q then
    if encode q ≤ maxB then ⟨q, encode q, true, att + 1⟩
    else optimize_go encode maxB qMin qStep hs (q - qStep) (att + 1)
  else
    ⟨qMin, encode qMin, false, att + 1⟩
termination_by (q + qStep - qMin).toNat
decreasing_by omega

/-- OptimizationUtils.optimize_file_size (optimization_utils.py lines
152-234), with the starting quality made explicit. -/
def optimize_file_size (encode : ℤ → ℕ) (maxB : ℕ) (qStart qMin qStep : ℤ)
    (hs : 0 < qStep) : SearchResult :=
  optimize_go encode maxB qMin qStep hs qStart 0

/-- The quality-selection loop shared by the `save_optimized` methods:
starting from `q`, return the first quality whose test encoding fits
`maxB`; if the loop exhausts, return `dflt` — the initial value of the
Python variable `final_quality`, which optimization_utils.py sets to
`quality_min` but instagram.py sets to `quality_start`. -/
def save_quality_search (encode : ℤ → ℕ) (maxB : ℕ) (dflt qMin qStep : ℤ)
    (hs : 0 < qStep) (q : ℤ) : ℤ :=
  if qMin ≤ q then
    if encode q ≤ maxB then q
    else save_quality_search encode maxB dflt qMin qStep hs (q - qStep)
  else dflt
termination_by (q + qStep - qMin).toNat
decreasing_by omega

/-- Final quality chosen by
OptimizationUtils.save_optimized_with_metadata (`final_quality`
initialized to `quality_min`). -/
def utils_save_quality (encode : ℤ → ℕ) (maxB : ℕ) (qStart qMin qStep : ℤ)
    (hs : 0 < qStep) : ℤ :=
  save_quality_search encode maxB qMin qMin qStep hs qStart

/-- Final quality chosen by InstagramSquareProcessor.save_optimized
(`final_quality` initialized to `quality = QUALITY_START = 95`; range
95 down to QUALITY_MIN = 60 in steps of 5; ceiling 4 MB). -/
def instagram_save_quality (encode : ℤ → ℕ) : ℤ :=
  save_quality_search encode (4 * 1024 * 1024) 95 60 5 (by norm_num) 95

/-- Values stored in the metadata dictionaries returned by the
`save_optimized` methods. -/
inductive MVal
  | s (v : String)
  | i (v : ℤ)
  | q (v : ℚ)
  | b (v : Bool)
  | null
  deriving DecidableEq

/-- Dimensions string `f'{w}{sep}{h}'` for a given separator literal. -/
def dims_str (sep : String) (w h : ℕ) : String :=
  toString w ++ sep ++ toString h

/-- Metadata dict returned by
OptimizationUtils.save_optimized_with_metadata (optimization_utils.py
lines 314-321); the separator in `dimensions` is the Unicode
multiplication sign U+00D7 present in the source line
`f'{image.size[0]}×{image.size[1]}'`. -/
def utils_save_metadata (path : String) (fs : ℕ) (finalq : ℤ) (w h : ℕ)
    (fmt : String) : List (String × MVal) :=
  [("file_path", .s path),
   ("file_size_bytes", .i fs),
   ("file_size_mb", .q (py_round_to 2 ((fs : ℚ) / (1024 * 1024)))),
   ("quality", .i finalq),
   ("dimensions", .s (dims_str "×" w h)),
   ("format", .s fmt)]

/-- Reading the encoding back from the in-memory buffer
(`output_buffer.seek(0); Image.open(output_buffer)`): the decoded raster
has the same pixel dimensions as the image that was saved, and saving an
RGB image as JPEG/WebP re-opens as RGB — codec model, the codec itself
being outside the repository. -/
def buffer_reopen (img : Img) : Img := img

/-- InstagramSquareProcessor._optimize_file_size (instagram.py lines
85-138): the same descent as optimize_file_size with the Instagram
constants (4 MB ceiling, 95 → 60, step 5); the returned image is the
re-opened buffer, whose dimensions and mode are those of the input. -/
def instagram_optimize_search (encode : ℤ → ℕ) : SearchResult :=
  optimize_file_size encode (4 * 1024 * 1024) 95 60 5 (by norm_num)

/-- InstagramSquareProcessor.process (instagram.py lines 26-70):
ensure RGB; if not square, smart-crop to the 1080×1080 target aspect;
if not already 1080×1080, LANCZOS-resize to 1080×1080; finally the
file-size optimization re-opens the encoded buffer (`buffer_reopen`). -/
def instagram_process (img : Img) : Img :=
  let i1 := ensure_rgb img
  let i2 :=
    if ¬ i1.width = i1.height then
      let c := smart_crop i1.width i1.height 1080 1080
      (⟨c.1, c.2, i1.mode⟩ : Img)
    else i1
  let i3 :=
    if ¬ (i2.width = 1080 ∧ i2.height = 1080) then resize_with_quality i2 1080 1080
    else i2
  buffer_reopen i3

/-- Outcome of JurySubmissionProcessor._optimize_for_jury_size:
the quality and size of the returned encoding and the number of
encode calls performed. -/
structure JuryResult where
  quality : ℤ
  size : ℕ
  attempts : ℕ
  deriving DecidableEq

/-- Loop of JurySubmissionProcessor._optimize_for_jury_size (jury.py
lines 76-134), band [1 MB, 2 MB], qualities 95 down to 60 step 5:
in-band returns immediately; a first-attempt (quality 95) size below the
band also returns immediately; an over-band size lowers the quality; an
under-band size at a later attempt breaks to the post-loop re-encode at
`max(quality, QUALITY_MIN)`; loop exhaustion re-encodes at the same
clamped quality (then 60). -/
def jury_optimize_go (encode : ℤ → ℕ) (q : ℤ) (att : ℕ) : JuryResult :=
  if 60 ≤ q then
    if 1048576 ≤ encode q ∧ encode q ≤ 2097152 then ⟨q, encode q, att + 1⟩
    else if encode q < 1048576 ∧ q = 95 then ⟨q, encode q, att + 1⟩
    else if 2097152 < encode q then jury_optimize_go encode (q - 5) (att + 1)
    else ⟨max q 60, encode (max q 60), att + 2⟩
  else ⟨max q 60, encode (max q 60), att + 1⟩
termination_by (q - 55).toNat
decreasing_by omega

/-- JurySubmissionProcessor._optimize_for_jury_size started at
QUALITY_START = 95. -/
def jury_optimize (encode : ℤ → ℕ) : JuryResult :=
  jury_optimize_go encode 95 0

/-- Aspect-preserving downscale to a target width, shared verbatim by
WebDisplayProcessor._resize_to_width (web.py lines 58-72) and
EmailNewsletterProcessor._resize_to_width (email.py lines 54-68):
a width already `<= target_width` returns the image as-is, otherwise
`new_height = int(target_width * (h / w))` under float semantics. -/
def resize_to_width (img : Img) (tw : ℕ) : Img :=
  if img.width ≤ tw then img
  else ⟨tw, fpTrunc (fpMul (fpOfNat tw) (flOfScaled img.height img.width 0)), img.mode⟩

/-- WebDisplayProcessor._optimize_for_web: quality descent re-opening the
chosen encoding from the buffer; dimensions and RGB mode of the input are
preserved (`buffer_reopen`), whichever format and quality is chosen. -/
def web_optimize (fmt : String) (img : Img) : Img := buffer_reopen img

/-- WebDisplayProcessor.process (web.py lines 20-43): ensure RGB, resize
to width 1920 (no upscale), optimize as WebP, falling back to JPEG when
the WebP encoder raises OSError/NotImplementedError (`webpRaises`). -/
def web_process (webpRaises : Bool) (img : Img) : Img :=
  let i1 := ensure_rgb img
  let i2 := resize_to_width i1 1920
  if webpRaises then web_optimize "JPEG" i2 else web_optimize "WebP" i2

/-- Python exceptions surfaced by the embedded processors. -/
inductive PyErr
  | attributeMissing (name : String)
  | oserror
  deriving DecidableEq

/-- The very first statement of EmailNewsletterProcessor.process calls
`self._fix_orientation_and_ensure_rgb(image)` (email.py line 32), but no
class in the repository defines that method, so Python attribute lookup
raises AttributeError on every call. -/
def email_fix_orientation_and_ensure_rgb (img : Img) : Except PyErr Img :=
  .error (.attributeMissing "_fix_orientation_and_ensure_rgb")

/-- EmailNewsletterProcessor._optimize_for_email: quality descent with the
email constants, re-opening the chosen encoding (dimensions and mode
preserved). -/
def email_optimize (img : Img) : Img := buffer_reopen img

/-- EmailNewsletterProcessor.process (email.py lines 21-40): the missing
orientation helper makes every call raise before the resize to width 600
and the optimization can run. -/
def email_process (img : Img) : Except PyErr Img := do
  let i1 ← email_fix_orientation_and_ensure_rgb img
  let i2 := resize_to_width i1 600
  pure (email_optimize i2)

/-- Optimization strategy of CustomProcessor. -/
inductive Strategy
  | quality
  | size
  deriving DecidableEq

/-- Instance configuration stored on a CustomProcessor by `__init__`:
the user parameters plus the strategy-derived quality settings.  `fmt` is
`self.format` (always the result of `format.upper()` at construction,
though `_optimize_for_custom_size` may in principle reassign it). -/
structure CustomConfig where
  target_width : Option ℕ
  target_height : Option ℕ
  max_size_mb : ℚ
  fmt : String
  strategy : Strategy
  max_dimension : Option ℕ
  quality_start : ℤ
  quality_min : Option ℤ
  progressive : Bool
  webp_method : ℕ
  deriving DecidableEq

/-- ValueError raised by CustomProcessor._validate_requirements, with the
values interpolated into its message. -/
inductive CustomErr
  | impossibleQuality (ms : ℚ)
  | impossiblePng (w h : ℕ) (ms : ℚ)
  deriving DecidableEq

/-- Python truthiness of an optional integer (`if self.target_width and
self.target_height:` treats both `None` and `0` as false). -/
def truthy (o : Option ℕ) : Bool :=
  match o with
  | none => false
  | some n => ¬ n = 0

/-- CustomProcessor._validate_requirements (custom.py lines 88-113):
the quality-strategy check fires for `self.format in ['JPEG', 'WebP']`
with `max_size_mb < 0.5`; the PNG check fires for `max_size_mb < 1.0`
when both target dimensions are truthy and the estimated raw size
`(w * h * 3) / (1024 * 1024)` exceeds `max_size_mb`. -/
def custom_validate (cfg : CustomConfig) : Except CustomErr Unit :=
  if cfg.strategy = .quality ∧ cfg.max_size_mb < 1 / 2 ∧
      (cfg.fmt = "JPEG" ∨ cfg.fmt = "WebP") then
    .error (.impossibleQuality cfg.max_size_mb)
  else if cfg.fmt = "PNG" ∧ cfg.max_size_mb < 1 then
    if truthy cfg.target_width ∧ truthy cfg.target_height then
      let w := cfg.target_width.getD 0
      let h := cfg.target_height.getD 0
      if cfg.max_size_mb < (w * h * 3 : ℚ) / (1024 * 1024) then
        .error (.impossiblePng w h cfg.max_size_mb)
      else .ok ()
    else .ok ()
  else .ok ()

/-- CustomProcessor.__init__ (custom.py lines 42-86): store the
parameters with `format.upper()`, apply the strategy table
(quality: 95/80/progressive/method 6; size: 75/45/non-progressive/method
4), apply the format adjustments (PNG clears `quality_min`; the WebP
branch compares against the mixed-case literal `'WebP'`, which
`format.upper()` can never produce), then validate.  No encoder is
involved anywhere in construction — the function does not even receive
one. -/
def custom_cfg0 (width height : Option ℕ) (ms : ℚ) (fmt : String)
    (strat : Strategy) (md : Option ℕ) : CustomConfig :=
  let fmtU := py_upper fmt
  let qs : ℤ := if strat = .quality then 95 else 75
  let qm0 : ℤ := if strat = .quality then 80 else 45
  let prog : Bool := strat = .quality
  let meth : ℕ := if strat = .quality then 6 else 4
  let qm : Option ℤ :=
    if fmtU = "PNG" then none
    else if fmtU = "WebP" then
      (if strat = .size then some (max 30 (qm0 - 10)) else some qm0)
    else some qm0
  ⟨width, height, ms, fmtU, strat, md, qs, qm, prog, meth⟩

/-- CustomProcessor.__init__, continued: construction either raises the
validation ValueError or completes with the stored configuration. -/
def custom_init (width height : Option ℕ) (ms : ℚ) (fmt : String)
    (strat : Strategy) (md : Option ℕ) : Except CustomErr CustomConfig :=
  match custom_validate (custom_cfg0 width height ms fmt strat md) with
  | .error e => .error e
  | .ok _ => .ok (custom_cfg0 width height ms fmt strat md)

/-- CustomProcessor._process_dimensions (custom.py lines 144-191) under
float semantics: optional max-dimension clamp, then exact target
dimensions (smart-crop first when the aspects differ by more than the
0.1 tolerance), or width-only / height-only aspect-preserving scale. -/
def custom_process_dimensions (cfg : CustomConfig) (img : Img) : Img :=
  let img1 :=
    if truthy cfg.max_dimension then
      let md := cfg.max_dimension.getD 0
      let maxSide := max img.width img.height
      if md < maxSide then
        let sf := flOfScaled md maxSide 0
        (⟨fpTrunc (fpMul (fpOfNat img.width) sf),
          fpTrunc (fpMul (fpOfNat img.height) sf), img.mode⟩ : Img)
      else img
    else img
  if truthy cfg.target_width ∧ truthy cfg.target_height then
    let tw := cfg.target_width.getD 0
    let th := cfg.target_height.getD 0
    if ¬ (img1.width = tw ∧ img1.height = th) then
      let tr := flOfScaled tw th 0
      let cr := flOfScaled img1.width img1.height 0
      if fpGt (fpAbsSub tr cr) fpPointOne then
        let c := smart_crop img1.width img1.height tw th
        resize_with_quality ⟨c.1, c.2, img1.mode⟩ tw th
      else resize_with_quality img1 tw th
    else img1
  else if truthy cfg.target_width then
    let tw := cfg.target_width.getD 0
    ⟨tw, fpTrunc (fpMul (fpOfNat tw) (flOfScaled img1.height img1.width 0)),
      img1.mode⟩
  else if truthy cfg.target_height then
    let th := cfg.target_height.getD 0
    ⟨fpTrunc (fpMul (fpOfNat th) (flOfScaled img1.width img1.height 0)), th,
      img1.mode⟩
  else img1

/-- Behavior of `PIL.Image.save` as observed by custom.py: whether saving
with a given format string raises OSError/NotImplementedError, and the
encoded byte size as a function of format and quality. -/
structure SaveOracle where
  raises : String → Bool
  size : String → ℤ → ℕ

/-- Post-loop best-effort save of CustomProcessor._optimize_for_custom_size
(custom.py lines 284-309): a single re-encode outside any try/except, so
an encoder exception propagates; `self.format` is not touched. -/
def custom_fallback (oracle : SaveOracle) (fmt : String) (img : Img) :
    Except PyErr Img × String :=
  if oracle.raises fmt then (.error .oserror, fmt)
  else (.ok (buffer_reopen img), fmt)

/-- Quality loop of CustomProcessor._optimize_for_custom_size (custom.py
lines 220-309), threading `self.format` explicitly: on an encoder
exception the `self.format == 'WebP'` branch rewrites the format to JPEG
and `continue`s, any other format re-raises; a fitting size returns the
re-opened buffer; PNG breaks to the fallback after one attempt; otherwise
`quality -= 5`. -/
def custom_optimize_go (oracle : SaveOracle) (maxB : ℕ) (qmin0 : ℤ)
    (img : Img) (fmt : String) (q : ℤ) : Except PyErr Img × String :=
  if qmin0 ≤ q then
    if oracle.raises fmt then
      if fmt = "WebP" then custom_optimize_go oracle maxB qmin0 img "JPEG" q
      else (.error .oserror, fmt)
    else
      if oracle.size fmt q ≤ maxB then (.ok (buffer_reopen img), fmt)
      else if fmt = "PNG" then custom_fallback oracle fmt img
      else custom_optimize_go oracle maxB qmin0 img fmt (q - 5)
  else custom_fallback oracle fmt img
termination_by ((if fmt = "WebP" then 1 else 0), (q + 5 - qmin0).toNat)
decreasing_by
  · simp_all
    omega
  · simp_all
    omega

/-- Python `int(self.max_size_mb * 1024 * 1024)`: truncation toward zero
of a nonnegative value. -/
def mb_to_bytes (ms : ℚ) : ℕ := (⌊ms * 1048576⌋).toNat

/-- CustomProcessor.process (custom.py lines 115-142) with the final
value of `self.format` returned alongside the result: PNG and the
(unreachable) literal `'WEBP'` keep the mode, anything else is converted
to RGB; then `_process_dimensions` and `_optimize_for_custom_size`. -/
def custom_process (cfg : CustomConfig) (oracle : SaveOracle) (img : Img) :
    Except PyErr Img × CustomConfig :=
  let i1 :=
    if cfg.fmt = "PNG" then img
    else if cfg.fmt = "WEBP" then img
    else ensure_rgb img
  let i2 := custom_process_dimensions cfg i1
  let r := custom_optimize_go oracle (mb_to_bytes cfg.max_size_mb)
      (cfg.quality_min.getD 0) i2 cfg.fmt cfg.quality_start
  (r.1, { cfg with fmt := r.2 })

/-- Every branch of `_ensure_rgb` yields an RGB image. -/
theorem ensure_rgb_mode (img : Img) : (ensure_rgb img).mode = .RGB := by
  unfold ensure_rgb
  split_ifs with h1 h2
  · rfl
  · exact h2
  · rfl

/-- `_ensure_rgb` never changes the pixel dimensions. -/
theorem ensure_rgb_dims (img : Img) :
    (ensure_rgb img).width = img.width ∧ (ensure_rgb img).height = img.height := by
  unfold ensure_rgb
  split_ifs <;> exact ⟨rfl, rfl⟩

/-- ASCII uppercasing never produces the lowercase letter `e`. -/
theorem upper_char_ne_e (c : Char) : ¬ upper_char c = 'e' := by
  unfold upper_char
  split
  next hcond =>
    intro h
    have h2 : (Char.ofNat (c.toNat - 32)).toNat = c.toNat - 32 := by
      unfold Char.ofNat
      rw [dif_pos (Or.inl (by omega : c.toNat - 32 < 55296))]
      rfl
    rw [h] at h2
    have h3 : Char.toNat 'e' = 101 := rfl
    rw [h3] at h2
    omega
  next hcond =>
    intro h
    subst h
    exact hcond ⟨by decide, by decide⟩

/-- The result of `format.upper()` can never be the mixed-case literal
`'WebP'` that custom.py's fallback branches compare against. -/
theorem py_upper_ne_WebP (s : String) : ¬ py_upper s = "WebP" := by
  obtain ⟨l⟩ := s
  intro h
  have hd : List.map upper_char l = ['W', 'e', 'b', 'P'] := congrArg String.data h
  rcases l with _ | ⟨a, _ | ⟨b, t⟩⟩
  · simp at hd
  · simp at hd
  · simp only [List.map_cons, List.cons.injEq] at hd
    exact upper_char_ne_e b hd.2.1

/-- When every quality in the searched range encodes above the ceiling,
the descent loop of `optimize_file_size` falls through to the final
encode at `quality_min`, returned un-met. -/
theorem optimize_go_fail (encode : ℤ → ℕ) (maxB : ℕ) (qMin qStep : ℤ)
    (hs : 0 < qStep) :
    ∀ q att, (∀ x, qMin ≤ x → x ≤ q → maxB < encode x) →
    (optimize_go encode maxB qMin qStep hs q att).quality = qMin ∧
    (optimize_go encode maxB qMin qStep hs q att).met = false ∧
    (optimize_go encode maxB qMin qStep hs q att).size = encode qMin := by
  intro q att h
  induction q, att using optimize_go.induct encode maxB qMin qStep hs with
  | case1 q att hq hfit =>
    exact absurd hfit (by exact Nat.not_le.mpr (h q hq le_rfl))
  | case2 q att hq hfit ih =>
    rw [optimize_go]
    rw [if_pos hq, if_neg hfit]
    exact ih (fun x hx hxq => h x hx (by omega))
  | case3 q att hq =>
    rw [optimize_go]
    rw [if_neg hq]
    exact ⟨rfl, rfl, rfl⟩

/-- When the floor quality fits the ceiling, the encoder is monotone in
quality, and the step divides the distance to the floor, the descent
succeeds: it returns through the in-loop branch with a size within the
ceiling. -/
theorem optimize_go_succ (encode : ℤ → ℕ) (maxB : ℕ) (qMin qStep : ℤ)
    (hs : 0 < qStep)
    (hmono : ∀ a b : ℤ, a ≤ b → encode a ≤ encode b)
    (hmin : encode qMin ≤ maxB) :
    ∀ q att, qMin ≤ q → qStep ∣ (q - qMin) →
    (optimize_go encode maxB qMin qStep hs q att).met = true ∧
    (optimize_go encode maxB qMin qStep hs q att).size ≤ maxB := by
  intro q att hq hdvd
  induction q, att using optimize_go.induct encode maxB qMin qStep hs with
  | case1 q att hq2 hfit =>
    rw [optimize_go]
    rw [if_pos hq2, if_pos hfit]
    exact ⟨rfl, hfit⟩
  | case2 q att hq2 hfit ih =>
    rw [optimize_go]
    simp only [if_pos hq2, if_neg hfit]
    have hne : ¬ q = qMin := by
      intro he
      exact hfit (he ▸ hmin)
    have hstep_le : qStep ≤ q - qMin := by
      refine Int.le_of_dvd ?_ hdvd
      omega
    refine ih (by omega) ?_
    have : q - qStep - qMin = q - qMin - qStep := by ring
    rw [this]
    exact dvd_sub hdvd dvd_rfl
  | case3 q att hq2 =>
    exact absurd hq hq2

/-- The attempts counter of the descent is bounded by the number of grid
points plus the final fallback encode. -/
theorem optimize_go_att (encode : ℤ → ℕ) (maxB : ℕ) (qMin qStep : ℤ)
    (hs : 0 < qStep) :
    ∀ q att, (optimize_go encode maxB qMin qStep hs q att).attempts ≤
      att + (q - qMin).toNat / qStep.toNat + 2 := by
  intro q att
  induction q, att using optimize_go.induct encode maxB qMin qStep hs with
  | case1 q att hq hfit =>
    rw [optimize_go]
    rw [if_pos hq, if_pos hfit]
    generalize (q - qMin).toNat / qStep.toNat = k
    show att + 1 ≤ att + k + 2
    omega
  | case2 q att hq hfit ih =>
    rw [optimize_go]
    rw [if_pos hq, if_neg hfit]
    by_cases hq2 : qMin ≤ q - qStep
    · refine le_trans ih ?_
      have hx : qStep.toNat ≤ (q - qMin).toNat := by omega
      have hsub : (q - qStep - qMin).toNat = (q - qMin).toNat - qStep.toNat := by omega
      have hdiv := Nat.div_eq_sub_div (by omega : 0 < qStep.toNat) hx
      rw [hsub]
      generalize hk : (q - qMin).toNat / qStep.toNat = k at hdiv
      generalize hk2 : ((q - qMin).toNat - qStep.toNat) / qStep.toNat = k2 at hdiv
      omega
    · rw [optimize_go]
      rw [if_neg hq2]
      generalize (q - qMin).toNat / qStep.toNat = k
      show att + 1 + 1 ≤ att + k + 2
      omega
  | case3 q att hq =>
    rw [optimize_go]
    rw [if_neg hq]
    generalize (q - qMin).toNat / qStep.toNat = k
    show att + 1 ≤ att + k + 2
    omega

/-- When no searched quality fits, the save-time quality selection
returns the initial value of `final_quality`. -/
theorem save_quality_search_fail (encode : ℤ → ℕ) (maxB : ℕ)
    (dflt qMin qStep : ℤ) (hs : 0 < qStep) :
    ∀ q, (∀ x, qMin ≤ x → x ≤ q → maxB < encode x) →
    save_quality_search encode maxB dflt qMin qStep hs q = dflt := by
  intro q h
  induction q using save_quality_search.induct encode maxB dflt qMin qStep hs with
  | case1 q hq hfit =>
    exact absurd hfit (by exact Nat.not_le.mpr (h q hq le_rfl))
  | case2 q hq hfit ih =>
    rw [save_quality_search]
    simp only [if_pos hq, if_neg hfit]
    exact ih (fun x hx hxq => h x hx (by omega))
  | case3 q hq =>
    rw [save_quality_search]
    simp [hq]

/-- The post-loop best-effort save never reassigns `self.format`. -/
theorem custom_fallback_fmt (oracle : SaveOracle) (fmt : String) (img : Img) :
    (custom_fallback oracle fmt img).2 = fmt := by
  unfold custom_fallback
  split_ifs <;> rfl

/-- Unless it starts as the unreachable literal `'WebP'`, the custom
optimization loop leaves `self.format` unchanged on every path. -/
theorem custom_optimize_go_fmt (oracle : SaveOracle) (maxB : ℕ) (qmin0 : ℤ)
    (img : Img) :
    ∀ fmt q, ¬ fmt = "WebP" →
    (custom_optimize_go oracle maxB qmin0 img fmt q).2 = fmt := by
  intro fmt q
  induction fmt, q using custom_optimize_go.induct oracle maxB qmin0 img with
  | case1 q hq hraise ih =>
    intro hne
    exact absurd rfl hne
  | case2 fmt q hq hraise hwebp =>
    intro hne
    rw [custom_optimize_go]
    rw [if_pos hq, if_pos hraise, if_neg hwebp]
  | case3 fmt q hq hraise hfit =>
    intro hne
    rw [custom_optimize_go]
    rw [if_pos hq, if_neg hraise, if_pos hfit]
  | case4 q hq hraise hfit =>
    intro hne
    rw [custom_optimize_go]
    rw [if_pos hq, if_neg hraise, if_neg hfit, if_pos rfl]
    exact custom_fallback_fmt oracle "PNG" img
  | case5 fmt q hq hraise hfit hpng ih =>
    intro hne
    rw [custom_optimize_go]
    rw [if_pos hq, if_neg hraise, if_neg hfit, if_neg hpng]
    exact ih hne
  | case6 fmt q hq =>
    intro hne
    rw [custom_optimize_go]
    rw [if_neg hq]
    exact custom_fallback_fmt oracle fmt img

/-- Claim C2, counterexample: when no quality in the searched range meets
the 4 MB ceiling (every encode returns 10000000 bytes), the
quality-selection loop of InstagramSquareProcessor.save_optimized keeps
`final_quality` at its initial value `QUALITY_START = 95` and the final
save happens at quality 95, not at the floor 60 the claim requires. -/
theorem C2_counterexample :
    instagram_save_quality (fun _ => 10000000) = 95 ∧ ¬ (95 : ℤ) = 60 := by
  constructor
  · unfold instagram_save_quality
    exact save_quality_search_fail _ _ _ _ _ _ 95 (fun x hx hx2 => by norm_num)
  · decide

/-- Claim C2 as amended: when the range is exhausted,
OptimizationUtils.optimize_file_size performs exactly one final encode at
`quality_min` and returns that best-effort encoding through its
no-exception fallback path (the function is total and the returned image
carries no explicit met/not-met marker — `met = false` records the
fallback branch); InstagramSquareProcessor.save_optimized, by contrast,
keeps `quality_start = 95` as its final quality when the search
exhausts. -/
theorem C2_amended_fallback :
    (∀ (encode : ℤ → ℕ) (maxB : ℕ) (qStart qMin qStep : ℤ) (hs : 0 < qStep),
      (∀ x, qMin ≤ x → x ≤ qStart → maxB < encode x) →
      (optimize_file_size encode maxB qStart qMin qStep hs).quality = qMin ∧
      (optimize_file_size encode maxB qStart qMin qStep hs).met = false ∧
      (optimize_file_size encode maxB qStart qMin qStep hs).size = encode qMin) ∧
    (∀ encode : ℤ → ℕ, (∀ x, 60 ≤ x → x ≤ 95 → 4 * 1024 * 1024 < encode x) →
      instagram_save_quality encode = 95) := by
  constructor
  · intro encode maxB qStart qMin qStep hs hfail
    exact optimize_go_fail encode maxB qMin qStep hs qStart 0 hfail
  · intro encode hfail
    unfold instagram_save_quality
    exact save_quality_search_fail _ _ _ _ _ _ 95 hfail

/-- Witness for C2_amended_fallback at the concrete encoder that always
produces 10000000 bytes against the 4 MB Instagram ceiling. -/
theorem C2_witness :
    (∀ x : ℤ, 60 ≤ x → x ≤ 95 → 4 * 1024 * 1024 < (fun _ : ℤ => 10000000) x) ∧
    (optimize_file_size (fun _ : ℤ => 10000000) (4 * 1024 * 1024) 95 60 5
        (by norm_num)).quality = 60 ∧
    instagram_save_quality (fun _ : ℤ => 10000000) = 95 := by
  refine ⟨fun x hx hx2 => by norm_num, ?_, ?_⟩
  · exact (C2_amended_fallback.1 (fun _ => 10000000) (4 * 1024 * 1024) 95 60 5
      (by norm_num) (fun x hx hx2 => by norm_num)).1
  · exact C2_amended_fallback.2 (fun _ => 10000000) (fun x hx hx2 => by norm_num)

/-- Claim C3: when some quality at or above the floor yields an encoding
within the ceiling, the encoder is monotone in quality (the premise
implicit in speaking of real codecs), and the step divides the searched
range (true of every preset: all ranges are multiples of the step 5),
the compression search returns through its success branch with an
encoded size within the ceiling. -/
theorem C3_convergence (encode : ℤ → ℕ) (maxB : ℕ) (qStart qMin qStep : ℤ)
    (hs : 0 < qStep)
    (hmono : ∀ a b : ℤ, a ≤ b → encode a ≤ encode b)
    (hrange : qMin ≤ qStart) (hdvd : qStep ∣ (qStart - qMin))
    (hex : ∃ x, qMin ≤ x ∧ encode x ≤ maxB) :
    (optimize_file_size encode maxB qStart qMin qStep hs).met = true ∧
    (optimize_file_size encode maxB qStart qMin qStep hs).size ≤ maxB := by
  obtain ⟨x, hx1, hx2⟩ := hex
  have hmin : encode qMin ≤ maxB := le_trans (hmono qMin x hx1) hx2
  exact optimize_go_succ encode maxB qMin qStep hs hmono hmin qStart 0 hrange hdvd

/-- Witness for C3_convergence with the monotone encoder `Int.toNat`,
ceiling 70 and the Instagram quality range 95 → 60 step 5. -/
theorem C3_witness :
    ((0 : ℤ) < 5 ∧ (∀ a b : ℤ, a ≤ b → a.toNat ≤ b.toNat) ∧ (60 : ℤ) ≤ 95 ∧
      (5 : ℤ) ∣ (95 - 60) ∧ ∃ x : ℤ, 60 ≤ x ∧ x.toNat ≤ 70) ∧
    (optimize_file_size (fun q : ℤ => q.toNat) 70 95 60 5 (by norm_num)).met =
      true ∧
    (optimize_file_size (fun q : ℤ => q.toNat) 70 95 60 5 (by norm_num)).size ≤
      70 := by
  refine ⟨⟨by norm_num, fun a b h => Int.toNat_le_toNat h, by norm_num,
    by norm_num, 60, by norm_num, by norm_num⟩, ?_⟩
  exact C3_convergence (fun q : ℤ => q.toNat) 70 95 60 5 (by norm_num)
    (fun a b h => Int.toNat_le_toNat h) (by norm_num) (by norm_num)
    ⟨60, by norm_num, by norm_num⟩

/-- Claim C4: for `quality_start ≥ quality_floor` and `quality_step > 0`
(the `hs` argument the embedding carries for the loop's very totality),
the search terminates — `optimize_file_size` is a total function — and
performs at most `(quality_start - quality_floor) / quality_step + 2`
encode attempts: the descent grid plus the one fallback encode. -/
theorem C4_bounded_attempts (encode : ℤ → ℕ) (maxB : ℕ)
    (qStart qMin qStep : ℤ) (hs : 0 < qStep) (hrange : qMin ≤ qStart) :
    (optimize_file_size encode maxB qStart qMin qStep hs).attempts ≤
      (qStart - qMin).toNat / qStep.toNat + 2 := by
  have h := optimize_go_att encode maxB qMin qStep hs qStart 0
  simpa using h

/-- Witness for C4_bounded_attempts on the Instagram range with an
encoder that never fits, forcing the full descent plus fallback. -/
theorem C4_witness :
    ((0 : ℤ) < 5 ∧ (60 : ℤ) ≤ 95) ∧
    (optimize_file_size (fun _ : ℤ => 10000000) (4 * 1024 * 1024) 95 60 5
        (by norm_num)).attempts ≤ ((95 : ℤ) - 60).toNat / (5 : ℤ).toNat + 2 := by
  refine ⟨⟨by norm_num, by norm_num⟩, ?_⟩
  exact C4_bounded_attempts (fun _ => 10000000) (4 * 1024 * 1024) 95 60 5
    (by norm_num) (by norm_num)

/-- Claim C5: for every input image with positive dimensions (the domain
on which the Python code runs without a ZeroDivisionError) and any color
mode, InstagramSquareProcessor.process returns an image of exactly
1080×1080 pixels in RGB mode; smaller inputs are upscaled by the same
unconditional resize. -/
theorem C5_square_process (img : Img) (hw : 0 < img.width)
    (hh : 0 < img.height) :
    instagram_process img = ⟨1080, 1080, .RGB⟩ := by
  have hm := ensure_rgb_mode img
  have key : ∀ j : Img, j.mode = .RGB →
      (if ¬ (j.width = 1080 ∧ j.height = 1080)
        then resize_with_quality j 1080 1080 else j) = ⟨1080, 1080, .RGB⟩ := by
    intro j hj
    by_cases hc : j.width = 1080 ∧ j.height = 1080
    · rw [if_neg (not_not_intro hc)]
      calc j = ⟨j.width, j.height, j.mode⟩ := rfl
        _ = ⟨1080, 1080, .RGB⟩ := by rw [hc.1, hc.2, hj]
    · rw [if_pos hc]
      unfold resize_with_quality
      rw [Img.mk.injEq]
      exact ⟨rfl, rfl, hj⟩
  have hcropmode : ∀ j : Img, j.mode = .RGB →
      (if ¬ j.width = j.height
        then (⟨(smart_crop j.width j.height 1080 1080).1,
               (smart_crop j.width j.height 1080 1080).2, j.mode⟩ : Img)
        else j).mode = .RGB := by
    intro j hj
    by_cases hc : j.width = j.height
    · rw [if_neg (not_not_intro hc)]
      exact hj
    · rw [if_pos hc]
      exact hj
  exact key _ (hcropmode (ensure_rgb img) hm)

/-- Witness for C5_square_process at the spec's end-to-end scenario, a
3000×2000 RGB input. -/
theorem C5_witness :
    0 < (3000 : ℕ) ∧ 0 < (2000 : ℕ) ∧
    instagram_process ⟨3000, 2000, .RGB⟩ = ⟨1080, 1080, .RGB⟩ := by
  refine ⟨by norm_num, by norm_num, ?_⟩
  exact C5_square_process ⟨3000, 2000, .RGB⟩ (by norm_num) (by norm_num)

/-- Claim C6: in the jury band search, a first encode (at
QUALITY_START = 95) already below the 1 MB band minimum is accepted and
returned immediately — one single encode attempt, no inflation. -/
theorem C6_jury_under_band (encode : ℤ → ℕ) (h : encode 95 < 1048576) :
    jury_optimize encode = ⟨95, encode 95, 1⟩ := by
  unfold jury_optimize
  rw [jury_optimize_go]
  rw [if_pos (by norm_num : (60 : ℤ) ≤ 95)]
  rw [if_neg (by omega : ¬ (1048576 ≤ encode 95 ∧ encode 95 ≤ 2097152))]
  rw [if_pos ⟨h, rfl⟩]

/-- Witness for C6_jury_under_band with a naturally tiny encoder. -/
theorem C6_witness :
    (fun _ : ℤ => 1000) 95 < 1048576 ∧
    jury_optimize (fun _ : ℤ => 1000) = ⟨95, 1000, 1⟩ := by
  exact ⟨by norm_num, C6_jury_under_band (fun _ => 1000) (by norm_num)⟩

/-- Claim C7: the web preset keeps a 100×100 RGBA input at 100×100 (not
upscaled to the 1920 target width) whether or not the WebP encoder is
available, while the email preset never returns at all — its very first
statement calls the undefined `_fix_orientation_and_ensure_rgb` and
raises AttributeError, contradicting the claim (and email's own test,
which expects a 400×300 result). -/
theorem C7_width_presets :
    web_process false ⟨100, 100, .RGBA⟩ = ⟨100, 100, .RGB⟩ ∧
    web_process true ⟨100, 100, .RGBA⟩ = ⟨100, 100, .RGB⟩ ∧
    email_process ⟨400, 300, .RGB⟩ =
      .error (.attributeMissing "_fix_orientation_and_ensure_rgb") := by
  exact ⟨rfl, rfl, rfl⟩

/-- Claim C8: constructing the custom processor with lossless PNG,
`max_size_mb = 0.5` and a 2000×2000 target raises the
impossible-constraint ValueError inside `__init__` itself — the
constructor takes no encoder and performs no encode attempt, and its
validation rejects the combination because the estimated raw size
2000·2000·3 bytes ≈ 11.44 MB exceeds 0.5 MB. -/
theorem C8_impossible_constraint :
    custom_init (some 2000) (some 2000) (1 / 2) "PNG" .quality none =
      .error (.impossiblePng 2000 2000 (1 / 2)) := by
  have hcfg : custom_cfg0 (some 2000) (some 2000) (1 / 2) "PNG" .quality none =
      ⟨some 2000, some 2000, 1 / 2, "PNG", .quality, none, 95,
        none, true, 6⟩ := rfl
  have h2 : custom_validate
      (⟨some 2000, some 2000, 1 / 2, "PNG", .quality, none, 95,
        none, true, 6⟩ : CustomConfig) =
      .error (.impossiblePng 2000 2000 (1 / 2)) := by
    unfold custom_validate
    rw [if_neg (by
      intro hcon
      exact absurd hcon.2.1 (by norm_num))]
    rw [if_pos ⟨rfl, by norm_num⟩]
    rw [if_pos (by decide)]
    rw [if_pos (by norm_num [Option.getD])]
    rfl
  unfold custom_init
  rw [hcfg, h2]

/-- Claim C9, counterexample: on the 35×15 image with target aspect 7:3 —
aspect ratios exactly equal — `_smart_crop` under CPython float
semantics computes `int(35 / (7/3))` as 14 (the nearest double to 7/3
lies above it, so the quotient lands just under 15 and truncates down)
and returns a 35×14 image, not the untouched 35×15 one. -/
theorem C9_counterexample :
    smart_crop 35 15 7 3 = (35, 14) ∧ ¬ smart_crop 35 15 7 3 = (35, 15) := by
  refine ⟨by decide, by decide⟩

/-- Claim C9 as amended: with exact rational arithmetic the equal-aspect
center crop is a no-op (the embedding `smart_crop_exact` of the same
source lines returns the input dimensions whenever `w*th = h*tw`), but
under IEEE binary64 semantics the recomputed height can lose one pixel:
35×15 at target 7:3 returns 35×14. -/
theorem C9_amended :
    (∀ w h tw th : ℕ, 0 < tw → 0 < th → w * th = h * tw →
      smart_crop_exact w h tw th = (w, h)) ∧
    smart_crop 35 15 7 3 = (35, 14) := by
  constructor
  · intro w h tw th htw hth heq
    unfold smart_crop_exact
    rw [if_neg (by
      rw [heq, Nat.mul_comm h tw]
      exact lt_irrefl _)]
    rw [heq, Nat.mul_div_cancel h htw]
  · decide

/-- Witness for C9_amended on a 6×4 image with target aspect 3:2. -/
theorem C9_witness :
    (0 < 3 ∧ 0 < 2 ∧ 6 * 2 = 4 * 3) ∧ smart_crop_exact 6 4 3 2 = (6, 4) := by
  exact ⟨⟨by norm_num, by norm_num, by norm_num⟩,
    C9_amended.1 6 4 3 2 (by norm_num) (by norm_num) (by norm_num)⟩

/-- Claim C10: any CustomProcessor produced by the constructor keeps its
entire stored configuration — `self.format` included — across process(),
for every encoder behavior (including one that raises on every save) and
every input: the only assignment to `self.format` sits in a fallback
branch guarded by `self.format == 'WebP'`, and `format.upper()` can
never produce that mixed-case string, so the branch is unreachable and
the returned configuration equals the constructed one.  The five fixed
presets hold their configuration in class-level constants that process()
never assigns. -/
theorem C10_config_preserved (w h : Option ℕ) (ms : ℚ) (f : String)
    (strat : Strategy) (md : Option ℕ) (cfg : CustomConfig)
    (hinit : custom_init w h ms f strat md = .ok cfg)
    (oracle : SaveOracle) (img : Img) :
    (custom_process cfg oracle img).2 = cfg := by
  have hfmt : cfg.fmt = py_upper f := by
    unfold custom_init at hinit
    split at hinit
    · exact absurd hinit (by simp)
    · injection hinit with h2
      rw [← h2]
      rfl
  have hne : ¬ cfg.fmt = "WebP" := by
    rw [hfmt]
    exact py_upper_ne_WebP f
  have h2 : (custom_process cfg oracle img).2 =
      { cfg with fmt := (custom_optimize_go oracle (mb_to_bytes cfg.max_size_mb)
        (cfg.quality_min.getD 0)
        (custom_process_dimensions cfg
          (if cfg.fmt = "PNG" then img
           else if cfg.fmt = "WEBP" then img
           else ensure_rgb img)) cfg.fmt cfg.quality_start).2 } := rfl
  rw [h2, custom_optimize_go_fmt oracle _ _ _ cfg.fmt cfg.quality_start hne]

/-- Witness for C10_config_preserved: a WebP-format custom processor run
against an encoder that raises on every save still keeps its
configuration. -/
theorem C10_witness :
    custom_init none none 5 "WebP" .size none =
      .ok ⟨none, none, 5, "WEBP", .size, none, 75, some 45, false, 4⟩ ∧
    (custom_process ⟨none, none, 5, "WEBP", .size, none, 75, some 45, false, 4⟩
        ⟨fun _ => true, fun _ _ => 10000000⟩ ⟨100, 100, .RGB⟩).2 =
      ⟨none, none, 5, "WEBP", .size, none, 75, some 45, false, 4⟩ := by
  constructor
  · rfl
  · exact C10_config_preserved none none 5 "WebP" .size none _ (by rfl)
      ⟨fun _ => true, fun _ _ => 10000000⟩ ⟨100, 100, .RGB⟩

end Pixelprep
